import Mathlib

/-!
Verification development for the EEG-to-text decoding model
(model_decoding_raw_try_another_model2.py).

The Python source is shallowly embedded:

* value-level linear algebra of the LoRA adapter (lines 20-44) uses
  Mathlib matrices over the reals;
* Python name resolution of the module (its import list, lines 1-7) is
  embedded as a lookup in the list of module-level bindings, so that the
  unresolved reference to the name math in LoRALinear.__init__ (line 31)
  is expressible;
* tensor shape discipline of the forward pipeline (lines 191-232 and
  234-274) is embedded concretely over shape lists, with the numeric
  kernels of library modules with learned weights (GRU, Conv1d,
  TransformerEncoder, LayerNorm, the decoder) held as function-valued
  components of the model, as the spec declares their internals out of
  scope;
* the subject registry (lines 100-102) and the freezing operation
  (lines 180-183) are embedded directly.
-/

/-! ## Python-level basics -/

/-- Python / PyTorch runtime errors that the embedded code can surface. -/
inductive PyErr where
  | nameError (n : String)
  | keyError (k : String)
  | runtimeError (msg : String)
  | indexError
deriving Repr, DecidableEq

/-- Tensor shapes are lists of dimension sizes, outermost first. -/
abbrev Shape := List Nat

/-- torch.squeeze with no dim argument: removes every dimension of size 1. -/
def squeezeAll (s : Shape) : Shape := s.filter (fun d => d != 1)

/-- torch.unsqueeze(x, 0): prepends a size-1 dimension. -/
def unsqueeze0 (s : Shape) : Shape := 1 :: s

/-- torch.unsqueeze(x, 1): inserts a size-1 dimension at position 1
(the source only applies it to tensors of rank at least 1). -/
def unsqueezeDim1 (s : Shape) : Shape :=
  match s with
  | a :: rest => a :: 1 :: rest
  | [] => [1]

/-! ## Module-level name resolution (source lines 1-7)

The Python module imports exactly the names below; LoRALinear.__init__
additionally references the free name math (line 31,
nn.init.kaiming_uniform_(self.lora_A, a=math.sqrt(5))), which none of
the imported names bind. -/

/-- Names bound at the top level of the module: the seven import lines
plus the defs and classes of the file itself. -/
def moduleGlobals : List String :=
  ["nn", "F", "pack_padded_sequence", "torch",
   "LlavaForConditionalGeneration", "LlavaProcessor",
   "XLNetTokenizer", "XLNetLMHeadModel",
   "cross_entropy", "LoRALinear", "LoRALayer", "ProjectionHead",
   "BrainTranslator", "FeatureEmbedded"]

/-- Evaluating a free name in the module body: a miss is a Python NameError. -/
def resolveName (n : String) : Except PyErr Unit :=
  if n ∈ moduleGlobals then .ok () else .error (.nameError n)

/-- The effect of LoRALinear.__init__ (lines 21-32) on name resolution:
the two torch.zeros allocations resolve torch, then the kaiming call on
line 31 resolves the free name math. -/
def LoRALinearConstruct : Except PyErr Unit := do
  resolveName "torch"
  resolveName "torch"
  resolveName "math"

/-- LoRALayer.__init__ (lines 38-41) constructs one LoRALinear. -/
def LoRALayerConstruct : Except PyErr Unit := LoRALinearConstruct

/-- ProjectionHead.__init__ (lines 47-70): with use_lora it constructs two
LoRALayer wrappers, otherwise only plain nn.Linear modules. -/
def ProjectionHeadConstruct (use_lora : Bool) : Except PyErr Unit :=
  if use_lora then do
    LoRALayerConstruct
    LoRALayerConstruct
  else .ok ()

/-- BrainTranslator.__init__ (lines 81-152) as a sequence of constructions:
self.fc = ProjectionHead(..., use_lora=use_lora) is the first construction
that can touch LoRALinear; with use_lora the encoder-layer retrofit
(lines 121-123), the brain projection head (lines 140-147) and the XLNet
retrofit (line 152) construct further LoRALayer wrappers. -/
def BrainTranslatorConstruct (use_lora : Bool) : Except PyErr Unit := do
  ProjectionHeadConstruct use_lora
  (if use_lora then LoRALayerConstruct else .ok ())
  ProjectionHeadConstruct use_lora
  (if use_lora then LoRALayerConstruct else .ok ())

/-- Default value of the use_lora keyword of BrainTranslator.__init__
(line 83). -/
def brainTranslatorDefaultUseLora : Bool := true

/-! ## Value-level LoRA adapter (source lines 20-44)

LoRALinear owns lora_A (rank x in_features) and lora_B
(out_features x rank); __init__ zero-initializes lora_B (line 32) while
lora_A receives an arbitrary kaiming sample (line 31).  forward (line 35)
computes (lora_B @ lora_A @ x.T).T * scaling with scaling = alpha / rank
(line 28). -/

structure LoRALinear (in_features out_features rank : ℕ) where
  lora_A : Matrix (Fin rank) (Fin in_features) ℝ
  lora_B : Matrix (Fin out_features) (Fin rank) ℝ
  alpha : ℝ

/-- scaling = alpha / rank (line 28). -/
noncomputable def LoRALinear.scaling {nI nO r : ℕ} (l : LoRALinear nI nO r) : ℝ :=
  l.alpha / (r : ℝ)

/-- LoRALinear.forward (line 35): (lora_B @ lora_A @ x.T).T * scaling,
for a batch x of row vectors. -/
noncomputable def LoRALinear.forward {nI nO r k : ℕ} (l : LoRALinear nI nO r)
    (x : Matrix (Fin k) (Fin nI) ℝ) : Matrix (Fin k) (Fin nO) ℝ :=
  l.scaling • (l.lora_B * l.lora_A * x.transpose).transpose

/-- The state of a LoRALinear immediately after __init__ (lines 26-32):
lora_A holds the kaiming sample A, lora_B is the zero matrix. -/
def LoRALinear.freshInit {nI nO r : ℕ} (A : Matrix (Fin r) (Fin nI) ℝ)
    (alpha : ℝ) : LoRALinear nI nO r :=
  { lora_A := A, lora_B := 0, alpha := alpha }

/-- LoRALayer.forward (line 44): base_layer(x) + lora(x); the base layer is
any linear-shaped transform. -/
noncomputable def LoRALayer.forward {nI nO r k : ℕ}
    (base_layer : Matrix (Fin k) (Fin nI) ℝ → Matrix (Fin k) (Fin nO) ℝ)
    (lora : LoRALinear nI nO r) (x : Matrix (Fin k) (Fin nI) ℝ) :
    Matrix (Fin k) (Fin nO) ℝ :=
  base_layer x + lora.forward x

/-! ## Subject registry (source lines 100-102) -/

/-- The 30 hardcoded subject identifier strings (lines 100-101). -/
def SUBJECTS : List String :=
  ["ZAB", "ZDM", "ZDN", "ZGW", "ZJM", "ZJN", "ZJS", "ZKB", "ZKH", "ZKW",
   "ZMG", "ZPH", "YSD", "YFS", "YMD", "YAC", "YFR", "YHS", "YLS", "YDG",
   "YRH", "YRK", "YMS", "YIS", "YTL", "YSL", "YRP", "YAG", "YDR", "YAK"]

/-- Lookup in a Python dict built as key -> position; keys are scanned in
order with their enumeration index. -/
def lookupFrom : List String → Nat → String → Option Nat
  | [], _, _ => none
  | k :: rest, i, s => if k = s then some i else lookupFrom rest (i + 1) s

/-- self.subjects_map_id (line 102): the dict comprehension
mapping each subject string to its enumeration index; a miss at lookup
time is a Python KeyError (line 204). -/
def subjects_map_id (s : String) : Option Nat := lookupFrom SUBJECTS 0 s

/-! ## Parameter freezing (source lines 180-183) -/

/-- Substring test on character lists: pat occurs contiguously in the list. -/
def hasSub (pat : List Char) : List Char → Bool
  | [] => pat.isEmpty
  | c :: rest => pat.isPrefixOf (c :: rest) || hasSub pat rest

/-- Python substring test pat in s on strings. -/
def strHasSub (pat s : String) : Bool := hasSub pat.toList s.toList

/-- freeze_pretrained_xlnet (lines 180-183): a model's named parameters are
(name, requires_grad) pairs; every parameter whose name does not contain
the substring lora gets requires_grad = False, the rest are untouched. -/
def freeze_pretrained_xlnet (params : List (String × Bool)) :
    List (String × Bool) :=
  params.map (fun p => if strHasSub "lora" p.1 then p else (p.1, false))

/-! ## Claim theorems C1, C2, C7, C9 -/

/-- C1: immediately after construction and before any training step, a
freshly initialized LoRALinear returns the zero matrix on every input
(lora_B is zero-initialized on line 32), and consequently a LoRALayer
wrapping any base transform computes exactly the base transform. -/
theorem C1_fresh_adapter_is_zero {nI nO r k : ℕ}
    (A : Matrix (Fin r) (Fin nI) ℝ) (alpha : ℝ)
    (base_layer : Matrix (Fin k) (Fin nI) ℝ → Matrix (Fin k) (Fin nO) ℝ)
    (x : Matrix (Fin k) (Fin nI) ℝ) :
    (@LoRALinear.freshInit nI nO r A alpha).forward x = 0 ∧
      LoRALayer.forward base_layer (@LoRALinear.freshInit nI nO r A alpha) x =
        base_layer x := by
  have hzero : (@LoRALinear.freshInit nI nO r A alpha).forward x = 0 := by
    unfold LoRALinear.forward LoRALinear.freshInit
    simp [Matrix.zero_mul, Matrix.transpose_zero]
  refine ⟨hzero, ?_⟩
  unfold LoRALayer.forward
  rw [hzero, add_zero]

/-- C2: constructing a LoRALinear always raises a NameError on the
unimported name math (line 31), and therefore constructing the top-level
BrainTranslator with adaptation enabled - the default - fails the same
way before any forward computation. -/
theorem C2_construction_raises_name_error :
    resolveName "math" = .error (.nameError "math") ∧
      LoRALinearConstruct = .error (.nameError "math") ∧
      BrainTranslatorConstruct brainTranslatorDefaultUseLora =
        .error (.nameError "math") ∧
      brainTranslatorDefaultUseLora = true := by
  refine ⟨by rfl, by rfl, by rfl, rfl⟩

/-- C7: subjects_map_id maps each of the 30 configured subject strings to a
distinct index below 30 (lookup always succeeds on them), and every string
outside the configured list looks up to none - the KeyError case at line
204, with no fallback to a default subject. -/
theorem C7_subject_registry :
    SUBJECTS.length = 30 ∧
      (∀ s ∈ SUBJECTS,
        (subjects_map_id s).isSome = true ∧ (subjects_map_id s).getD 0 < 30) ∧
      (SUBJECTS.map subjects_map_id).Nodup ∧
      (∀ s, s ∉ SUBJECTS → subjects_map_id s = none) := by
  refine ⟨by decide, by decide, by decide, ?_⟩
  intro s hs
  have h : ∀ (l : List String) (i : Nat), s ∉ l → lookupFrom l i s = none := by
    intro l
    induction l with
    | nil => intro i _; rfl
    | cons k rest ih =>
      intro i hmem
      have hk : ¬ (k = s) := fun h => hmem (h ▸ List.mem_cons_self k rest)
      simp [lookupFrom, hk]
      exact ih (i + 1) (fun h => hmem (List.mem_cons_of_mem k h))
  exact h SUBJECTS 0 hs

/-- C7 witness: the first configured subject resolves, an unconfigured
subject code is a hard lookup miss. -/
theorem C7_subject_registry_witness :
    (subjects_map_id "ZAB").isSome = true ∧ subjects_map_id "ABC" = none := by
  refine ⟨(C7_subject_registry.2.1 "ZAB" (by decide)).1, ?_⟩
  exact C7_subject_registry.2.2.2 "ABC" (by decide)

/-- C9: starting from a model whose parameters all have gradients enabled
(the construction default), after freeze_pretrained_xlnet a parameter has
requires_grad = true exactly when its name contains the adapter substring
lora; in particular the two counts coincide. -/
theorem C9_freeze_exactly_lora (params : List (String × Bool))
    (h : ∀ p ∈ params, p.2 = true) :
    (∀ q ∈ freeze_pretrained_xlnet params, q.2 = strHasSub "lora" q.1) ∧
      (freeze_pretrained_xlnet params).countP (fun p => p.2) =
        (freeze_pretrained_xlnet params).countP
          (fun p => strHasSub "lora" p.1) := by
  have hpt : ∀ q ∈ freeze_pretrained_xlnet params,
      q.2 = strHasSub "lora" q.1 := by
    intro q hq
    rcases List.mem_map.mp hq with ⟨p, hp, hfq⟩
    by_cases hc : strHasSub "lora" p.1 = true
    · have : q = p := by simpa [freeze_pretrained_xlnet, hc] using hfq.symm
      rw [this, h p hp, hc]
    · have hq2 : q = (p.1, false) := by
        simpa [freeze_pretrained_xlnet, hc] using hfq.symm
      rw [hq2]
      simp [Bool.not_eq_true] at hc
      simp [hc]
  refine ⟨hpt, ?_⟩
  apply List.countP_congr
  intro q hq
  simp [hpt q hq]

/-- Concrete parameter list for the C9 witness: one adapter parameter and
one pretrained parameter, both trainable as constructed. -/
def demoParams : List (String × Bool) :=
  [("xlnet.transformer.layer.0.ff.layer_1.lora.lora_A", true),
   ("encoder.layers.0.linear1.weight", true),
   ("fc.projection.lora.lora_B", true),
   ("pos_embedding", true)]

/-- C9 witness: on the concrete parameter list the enabled-gradient count
equals the adapter-name count after freezing. -/
theorem C9_freeze_exactly_lora_witness :
    (freeze_pretrained_xlnet demoParams).countP (fun p => p.2) =
      (freeze_pretrained_xlnet demoParams).countP
        (fun p => strHasSub "lora" p.1) :=
  (C9_freeze_exactly_lora demoParams (by decide)).2

/-! ## Value-level projection head (source lines 46-78)

ProjectionHead.forward (lines 72-78) runs: projected = projection(x);
x = gelu(projected); x = fc(x); x = dropout(x); x = x + projected.
The two stages are linear-shaped transforms (plain nn.Linear, or LoRALayer
wrappers when use_lora); dropout is a stochastic map, embedded as the
realized mask transformation of one call.  nn.GELU() is the exact
erf-based gelu, x * Phi(x) with Phi the standard normal cdf; it is
transcendental, hence defined via the Gaussian integral (noncomputable,
like every real-valued definition of this development). -/

/-- Standard normal cumulative distribution function. -/
noncomputable def gaussianCdf (x : ℝ) : ℝ :=
  (∫ t in Set.Iic x, Real.exp (-(t ^ 2) / 2)) / Real.sqrt (2 * Real.pi)

/-- nn.GELU(): gelu(x) = x * Phi(x). -/
noncomputable def gelu (x : ℝ) : ℝ := x * gaussianCdf x

/-- nn.Linear: weight matrix and bias vector. -/
structure PyLinear (nI nO : ℕ) where
  weight : Matrix (Fin nO) (Fin nI) ℝ
  bias : Fin nO → ℝ

/-- nn.Linear applied to one vector: weight @ x + bias. -/
noncomputable def PyLinear.applyVec {nI nO : ℕ} (l : PyLinear nI nO)
    (x : Fin nI → ℝ) : Fin nO → ℝ :=
  l.weight.mulVec x + l.bias

/-- ProjectionHead (lines 46-70): the two stages self.projection
(embedding_dim to projection_dim) and self.fc (projection_dim to
projection_dim), each a linear-shaped transform. -/
structure ProjectionHead (e p : ℕ) where
  projection : (Fin e → ℝ) → (Fin p → ℝ)
  fc : (Fin p → ℝ) → (Fin p → ℝ)

/-- ProjectionHead.forward (lines 72-78), with the realized dropout map of
this call passed explicitly: projected = projection(x); then gelu, then fc,
then dropout, then the residual addition of projected. -/
noncomputable def ProjectionHead.forward {e p : ℕ} (ph : ProjectionHead e p)
    (dropout : (Fin p → ℝ) → (Fin p → ℝ)) (x : Fin e → ℝ) : Fin p → ℝ :=
  let projected := ph.projection x
  let h1 := fun i => gelu (projected i)
  let h2 := ph.fc h1
  let h3 := dropout h2
  h3 + projected

/-- One realized draw of nn.Dropout(p) in training mode: coordinates kept
by the Bernoulli mask are rescaled by 1/(1-p), dropped coordinates become
zero.  With p = 0 the all-true mask is the only realization and the map is
the identity (deterministic / eval behavior). -/
noncomputable def dropoutRealization {n : ℕ} (p : ℝ) (mask : Fin n → Bool) :
    (Fin n → ℝ) → (Fin n → ℝ) :=
  fun v i => if mask i then v i / (1 - p) else 0

/-- Concrete projection head for the C4 counterexample: stage one is the
zero linear map, stage two has zero weight and bias one. -/
noncomputable def phCx : ProjectionHead 1 1 :=
  { projection := PyLinear.applyVec { weight := 0, bias := fun _ => 0 },
    fc := PyLinear.applyVec { weight := 0, bias := fun _ => 1 } }

/-- Concrete realized dropout draw for the C4 counterexample: probability
one half, with the (positive-probability) mask that drops the coordinate. -/
noncomputable def dropCx : (Fin 1 → ℝ) → (Fin 1 → ℝ) :=
  dropoutRealization (1 / 2) (fun _ => false)

/-- C4 counterexample: the claim places dropout between the nonlinearity
and the second stage, i.e. output = stage2(dropout(gelu(stage1 x))) +
stage1 x.  On the concrete head phCx with the realized dropout draw dropCx
and input 0 the code computes 0 while the claimed expression computes 1. -/
theorem C4_dropout_position_counterexample :
    ProjectionHead.forward phCx dropCx (fun _ => 0) ≠
      phCx.fc (dropCx (fun i => gelu (phCx.projection (fun _ => 0) i))) +
        phCx.projection (fun _ => 0) := by
  intro h
  have h0 := congrFun h 0
  simp [ProjectionHead.forward, phCx, dropCx, dropoutRealization,
    PyLinear.applyVec, Matrix.zero_mulVec] at h0

/-- C4 (amended): for every input x the block returns
dropout(stage2(gelu(stage1 x))) + stage1 x - dropout is applied AFTER the
second stage, not between the nonlinearity and the second stage, and the
residual shortcut from stage1's pre-activation output bypasses both; the
output lives in the projection_dim space (shape (*, projection_dim) by
type).  With dropout probability 0 in its deterministic realization,
output = stage2(gelu(stage1 x)) + stage1 x exactly. -/
theorem C4_projection_head_amended {e p : ℕ} (ph : ProjectionHead e p)
    (x : Fin e → ℝ) :
    (∀ dropout, ph.forward dropout x =
        dropout (ph.fc (fun i => gelu (ph.projection x i))) +
          ph.projection x) ∧
      ph.forward (dropoutRealization 0 (fun _ => true)) x =
        ph.fc (fun i => gelu (ph.projection x i)) + ph.projection x := by
  have hid : ∀ v : Fin p → ℝ,
      dropoutRealization 0 (fun _ => true) v = v := by
    intro v
    funext i
    simp [dropoutRealization]
  exact ⟨fun dropout => rfl, by rw [ProjectionHead.forward, hid]⟩

/-! ## The encoder-layer LoRA retrofit (source lines 110-136)

nn.Module child tables are embedded as a small module-tree type.  The
child table of nn.TransformerEncoderLayer holds self_attn (the multi-head
attention, whose three input projections live in one packed parameter
in_proj_weight and are NOT Linear submodules; its only Linear child is
out_proj), linear1, dropout, linear2, norm1, norm2, dropout1, dropout2. -/

/-- A PyTorch module as seen through its child-module table: a Linear leaf,
a LoRALayer wrapper, or a module with named children. -/
inductive PyModule where
  | linear (in_features out_features : ℕ)
  | lora (base : PyModule)
  | container (children : List (String × PyModule))
deriving Repr

/-- isinstance(module, nn.Linear). -/
def PyModule.isLinear : PyModule → Bool
  | .linear _ _ => true
  | _ => false

/-- Joining a parent path with a child name in named_modules. -/
def dotJoin (pre n : String) : String :=
  if pre = "" then n else pre ++ "." ++ n

mutual
/-- nn.Module.named_modules(): the module itself under its path, then every
descendant under its dotted path. -/
def namedModulesAux (pre : String) : PyModule → List (String × PyModule)
  | .container cs => (pre, .container cs) :: namedModulesChildren pre cs
  | m => [(pre, m)]

/-- named_modules over a child table. -/
def namedModulesChildren (pre : String) :
    List (String × PyModule) → List (String × PyModule)
  | [] => []
  | (n, c) :: rest =>
      namedModulesAux (dotJoin pre n) c ++ namedModulesChildren pre rest
end

/-- Updating a child table at a literal key (appending when absent). -/
def setAssoc : List (String × PyModule) → String → PyModule →
    List (String × PyModule)
  | [], n, v => [(n, v)]
  | (k, x) :: rest, n, v =>
      if k = n then (n, v) :: rest else (k, x) :: setAssoc rest n v

/-- setattr(module, name, value) with a module value: nn.Module stores the
value in its own child table under the LITERAL name - a dotted name such as
self_attn.out_proj becomes a new top-level key, it does not update the
nested submodule. -/
def setattrModule (m : PyModule) (name : String) (v : PyModule) : PyModule :=
  match m with
  | .container cs => .container (setAssoc cs name v)
  | other => other

/-- Child lookup by literal name. -/
def lookupChild : List (String × PyModule) → String → Option PyModule
  | [], _ => none
  | (k, x) :: rest, n => if k = n then some x else lookupChild rest n

/-- getattr by literal child name. -/
def getattrModule (m : PyModule) (name : String) : Option PyModule :=
  match m with
  | .container cs => lookupChild cs name
  | _ => none

/-- Following a nested attribute path, as the layer's forward computation
does (self.self_attn uses its own out_proj child; self.linear1 and
self.linear2 are direct children). -/
def getNested : PyModule → List String → Option PyModule
  | m, [] => some m
  | m, n :: rest =>
      match getattrModule m n with
      | some c => getNested c rest
      | none => none

/-- The child-module table of nn.TransformerEncoderLayer(d_model = d,
dim_feedforward = ff), as constructed on lines 111-118. -/
def TransformerEncoderLayerModules (d ff : ℕ) : PyModule :=
  .container
    [("self_attn", .container [("out_proj", .linear d d)]),
     ("linear1", .linear d ff),
     ("dropout", .container []),
     ("linear2", .linear ff d),
     ("norm1", .container []),
     ("norm2", .container []),
     ("dropout1", .container []),
     ("dropout2", .container [])]

/-- The retrofit loop of BrainTranslator.__init__ (lines 121-123): for
every (name, module) of encoder_layer.named_modules() with module an
nn.Linear, run setattr(encoder_layer, name, LoRALayer(module)).  The loop
is modelled by its substitution semantics over the named-modules list of
the original layer; in the source as executed it additionally raises - the
LoRALayer construction hits the NameError of C2 at the first wrapped
module - so this definition describes the substitutions the loop codes
for. -/
def addLoraToEncoderLayer (layer : PyModule) : PyModule :=
  (namedModulesAux "" layer).foldl
    (fun acc p =>
      if p.2.isLinear then setattrModule acc p.1 (.lora p.2) else acc)
    layer

/-- nn.TransformerEncoder(self.encoder_layer, num_layers=12) (line 136):
the layer is replicated into 12 stack entries (deep copies). -/
def transformerEncoderStack (layer : PyModule) : List PyModule :=
  List.replicate 12 layer

/-- C8 counterexample: on the reference layer (d_model 840,
dim_feedforward 2048) the retrofitted layer still reaches a PLAIN Linear
at the nested path self_attn.out_proj used by the attention's forward
computation; the LoRA wrapper built for it sits under the dead literal
attribute name self_attn.out_proj instead.  So not every attention
projection in the forward path is an adapted wrapper. -/
theorem C8_attention_not_wrapped_counterexample :
    getNested (addLoraToEncoderLayer (TransformerEncoderLayerModules 840 2048))
        ["self_attn", "out_proj"] = some (.linear 840 840) ∧
      getattrModule
          (addLoraToEncoderLayer (TransformerEncoderLayerModules 840 2048))
          "self_attn.out_proj" = some (.lora (.linear 840 840)) :=
  ⟨rfl, rfl⟩

/-- C8 (amended): the retrofit loop, run before the 12-fold replication of
the layer, wraps among the sublayers used in the layer's forward
computation only the two feed-forward linears linear1 and linear2; the
attention input projections are a packed parameter rather than Linear
submodules and are never visited, and the wrapper for the attention output
projection lands under the literal dotted name self_attn.out_proj while
the nested out_proj the attention actually uses stays plain; the stack
then replicates this partially retrofitted layer 12 times. -/
theorem C8_retrofit_amended (d ff : ℕ) :
    getattrModule (addLoraToEncoderLayer (TransformerEncoderLayerModules d ff))
        "linear1" = some (.lora (.linear d ff)) ∧
      getattrModule
          (addLoraToEncoderLayer (TransformerEncoderLayerModules d ff))
          "linear2" = some (.lora (.linear ff d)) ∧
      getNested (addLoraToEncoderLayer (TransformerEncoderLayerModules d ff))
          ["self_attn", "out_proj"] = some (.linear d d) ∧
      getattrModule
          (addLoraToEncoderLayer (TransformerEncoderLayerModules d ff))
          "self_attn.out_proj" = some (.lora (.linear d d)) ∧
      transformerEncoderStack
          (addLoraToEncoderLayer (TransformerEncoderLayerModules d ff)) =
        List.replicate 12
          (addLoraToEncoderLayer (TransformerEncoderLayerModules d ff)) :=
  ⟨rfl, rfl, rfl, rfl, rfl⟩

/-! ## Tensor-level forward pipeline (source lines 191-232 and 234-274)

Tensors carry their shape concretely; the numeric kernels of the library
modules with learned weights (the GRU, the pointwise convolution and
subject matrices, the transformer encoder, layer normalization, the two
projection heads, the decoder) are held as function-valued components of
the model, since the spec places their internals out of scope.  All shape
manipulation, control flow, guards and lookups are embedded concretely
from the source. -/

/-- A tensor: shape plus (rational) payload. -/
structure Tensor where
  shape : Shape
  data : List ℚ
deriving Repr, DecidableEq

/-- Helper: binding an error short-circuits in the Except monad. -/
theorem except_bind_error {ε α β : Type} (e : ε) (f : α → Except ε β) :
    (Except.error e : Except ε α) >>= f = Except.error e := rfl

/-- Helper: binding a success applies the continuation. -/
theorem except_bind_ok {ε α β : Type} (a : α) (f : α → Except ε β) :
    (Except.ok a : Except ε α) >>= f = f a := rfl

/-- Helper: the last entry of a list extended by a singleton. -/
theorem getLast?_append_singleton (l : List ℕ) (a : ℕ) :
    (l ++ [a]).getLast? = some a := by
  induction l with
  | nil => rfl
  | cons x xs ih =>
    rw [List.cons_append, List.getLast?_cons, ih]
    cases xs <;> rfl

/-- FeatureEmbedded (lines 235-257): configuration plus the held numeric
kernel of the packed GRU runs and final-step selections of the per-word
loop. -/
structure FeatureEmbedded where
  input_dim : ℕ
  hidden_dim : ℕ
  num_layers : ℕ
  is_bidirectional : Bool
  gruData : ℕ → ℕ → List ℚ

/-- Width of one word's embedding: the final hidden state concatenated
over both directions when bidirectional. -/
def FeatureEmbedded.outWidth (f : FeatureEmbedded) : ℕ :=
  f.hidden_dim * (if f.is_bidirectional then 2 else 1)

/-- FeatureEmbedded.forward (lines 259-274) at shape level, for a batch of
B samples of W words each: per sample the W per-word final hidden states
are stacked into (W, outWidth) (line 270), the B samples are stacked into
(B, W, outWidth) and the result is torch.squeeze of that stack (line 274)
- every size-1 dimension is removed.  torch.stack on an empty list (B = 0,
or W = 0 inside a sample) raises. -/
def FeatureEmbedded.forward (f : FeatureEmbedded) (B W : ℕ) :
    Except PyErr Tensor :=
  if B = 0 ∨ W = 0 then
    .error (.runtimeError "stack expects a non-empty TensorList")
  else .ok ⟨squeezeAll [B, W, f.outWidth], f.gruData B W⟩

/-- The guard at lines 194-195: a rank-2 feature embedding is re-expanded
by torch.unsqueeze(_, 0). -/
def rank2Guard (t : Tensor) : Tensor :=
  if t.shape.length = 2 then ⟨unsqueeze0 t.shape, t.data⟩ else t

/-- Shape rule of nn.Linear(nI, nO): the last dimension must equal nI and
becomes nO; a mismatch is the runtime matmul error. -/
def linearShape (nI nO : ℕ) (s : Shape) : Except PyErr Shape :=
  match s.getLast? with
  | none => .error (.runtimeError "linear on a 0-dim tensor")
  | some d =>
      if d = nI then .ok (s.dropLast ++ [nO])
      else .error (.runtimeError "mat1 and mat2 shapes cannot be multiplied")

/-- ProjectionHead at tensor level (lines 46-78): the plain-Linear
configuration (the use_lora configuration is unconstructible, see C2);
stage one maps embedding_dim to projection_dim, stage two preserves
projection_dim, gelu / dropout / residual preserve the shape; phData holds
the numeric kernel of the whole block. -/
structure ProjectionHeadT where
  embedding_dim : ℕ
  projection_dim : ℕ
  phData : List ℚ → List ℚ

/-- ProjectionHead.forward (lines 72-78) at tensor level. -/
def ProjectionHeadT.forward (ph : ProjectionHeadT) (t : Tensor) :
    Except PyErr Tensor := do
  let s1 ← linearShape ph.embedding_dim ph.projection_dim t.shape
  let _s2 ← linearShape ph.projection_dim ph.projection_dim s1
  .ok ⟨s1, ph.phData t.data⟩

/-- Shape rule of nn.Conv1d(inC, outC, 1) on a 3-dim input (N, C, L). -/
def conv1dShape (inC outC : ℕ) (s : Shape) : Except PyErr Shape :=
  match s with
  | [n, c, l] =>
      if c = inC then .ok [n, outC, l]
      else .error (.runtimeError "conv1d channel mismatch")
  | _ => .error (.runtimeError "conv1d expects a 3-dim input here")

/-- torch.swapaxes(_, 1, 2) on a 3-dim tensor. -/
def swapaxes12Shape (s : Shape) : Except PyErr Shape :=
  match s with
  | [a, b, c] => .ok [a, c, b]
  | _ => .error (.runtimeError "swapaxes out of range")

/-- torch.matmul of a (*, b, k) tensor with a (k, m) matrix. -/
def matmulColShape (k m : ℕ) (s : Shape) : Except PyErr Shape :=
  match s with
  | [a, b, c] =>
      if c = k then .ok [a, b, m]
      else .error (.runtimeError "matmul dimension mismatch")
  | _ => .error (.runtimeError "matmul expects a 3-dim input here")

/-- One sample of the subject loop (lines 201-206): unsqueeze at dim 1,
the 1-to-64-channel pointwise convolution, swapaxes(1,2), matmul by the
subject's 64x1 matrix, then torch.squeeze (ALL size-1 dims removed). -/
def subjectSampleShape (s : Shape) : Except PyErr Shape := do
  let t0 := unsqueezeDim1 s
  let t1 ← conv1dShape 1 64 t0
  let t2 ← swapaxes12Shape t1
  let t3 ← matmulColShape 64 1 t2
  .ok (squeezeAll t3)

/-- Batch re-assembly of the per-sample results (lines 209-212): a
single-sample batch is re-expanded by unsqueeze(_, 0), otherwise
torch.stack prepends the batch dimension. -/
def subjectAssemble (B : ℕ) (s : Shape) : Shape :=
  if B = 1 then unsqueeze0 s else B :: s

/-- One dimension of the torch broadcasting rule. -/
def broadcastDim (a b : ℕ) : Option ℕ :=
  if a = b then some a else if a = 1 then some b
  else if b = 1 then some a else none

/-- Broadcast addition of two 3-dim shapes (line 214, adding the (1, 56,
in_feature) positional embedding). -/
def broadcastShape3 (s t : Shape) : Except PyErr Shape :=
  match s, t with
  | [a, b, c], [d, e, f] =>
      match broadcastDim a d, broadcastDim b e, broadcastDim c f with
      | some x, some y, some z => .ok [x, y, z]
      | _, _, _ => .error (.runtimeError "broadcast shape mismatch")
  | _, _ => .error (.runtimeError "broadcast expects 3-dim tensors here")

/-- Modelled from the spec: the pretrained decoder is an external
collaborator exposing an embedding lookup and a loss-bearing forward; its
internals are out of scope, so its numeric kernels are held functions
while its interface shapes follow the spec contract. -/
structure XLNetModel where
  d_model : ℕ
  vocab_size : ℕ
  embedData : List ℚ → List ℚ
  logitsData : List ℚ → List ℚ → List ℚ → List ℚ

/-- get_input_embeddings()(ids) (line 221): one d_model vector per token
id, shape ids.shape ++ [d_model]. -/
def XLNetModel.inputEmbeddings (xl : XLNetModel) (ids : Tensor) : Tensor :=
  ⟨ids.shape ++ [xl.d_model], xl.embedData ids.data⟩

/-- The decoder forward with inputs_embeds, attention_mask and labels
(lines 225-227): logits carry one vocab_size row per input embedding
position, shape (batch, seq, vocab_size). -/
def XLNetModel.forwardLogits (xl : XLNetModel) (inputs_embeds attn labels :
    Tensor) : Except PyErr Tensor :=
  match inputs_embeds.shape with
  | [b, s, d] =>
      if d = xl.d_model then
        .ok ⟨[b, s, xl.vocab_size],
             xl.logitsData inputs_embeds.data attn.data labels.data⟩
      else .error (.runtimeError "inputs_embeds width mismatch")
  | _ => .error (.runtimeError "inputs_embeds must be 3-dim")

/-- nn.MSELoss() (lines 222-223): the mean of elementwise squared
differences. -/
def mseLoss (a b : List ℚ) : ℚ :=
  (((a.zip b).map (fun p => (p.1 - p.2) ^ 2)).sum) / ((a.zip b).length : ℚ)

/-- The value of the top-level forward: a scalar loss in alignment mode,
logits (optionally paired with the brain embedding) in generation mode. -/
inductive ForwardOut where
  | scalar (v : ℚ)
  | logits (t : Tensor)
  | logitsAndFeatures (t f : Tensor)
deriving Repr, DecidableEq

/-- The per-call inputs of BrainTranslator.forward (lines 191-192): B
samples of W words each, their subject identifier strings, and the mask /
token-id tensors handed to the collaborators. -/
structure ForwardInput where
  B : ℕ
  W : ℕ
  subject_batch : List String
  input_masks_batch : Tensor
  input_masks_invert : Tensor
  target_ids : Tensor
  word_contents : Tensor
  word_contents_attn : Tensor

/-- BrainTranslator (lines 80-152): the construction parameters in_feature
and decoder_embedding_size, the held numeric kernels of the pipeline
stages, and the decoder collaborator. -/
structure BrainTranslator where
  in_feature : ℕ
  decoder_embedding_size : ℕ
  gruData : ℕ → ℕ → List ℚ
  fcData : List ℚ → List ℚ
  subjectStageData : List ℕ → List ℚ → List ℚ
  posAddData : List ℚ → List ℚ
  encData : List ℚ → List ℚ
  lnData : List ℚ → List ℚ
  projData : List ℚ → List ℚ
  xlnet : XLNetModel

/-- Line 91-92: self.hidden_dim = 512 and self.feature_embedded =
FeatureEmbedded(input_dim=104, hidden_dim=512), with the class defaults
num_layers=2 and is_bidirectional=True (line 236). -/
def BrainTranslator.featureEmbedded (m : BrainTranslator) : FeatureEmbedded :=
  ⟨104, 512, 2, true, m.gruData⟩

/-- The subject-conditioning stage (lines 198-212): iterate the samples of
the rank-3 encoded embedding, look every sample's subject up in
subjects_map_id (a miss is the KeyError of line 204, a missing batch entry
an IndexError), transform each sample's shape, and re-assemble the batch
with the single-sample guard. -/
def BrainTranslator.subjectStage (m : BrainTranslator) (inp : ForwardInput)
    (enc : Tensor) : Except PyErr Tensor :=
  match enc.shape with
  | [b2, w2, f2] => do
      let idxs ← (List.range b2).mapM (fun i =>
        match inp.subject_batch.get? i with
        | none => Except.error PyErr.indexError
        | some s =>
            match subjects_map_id s with
            | none => Except.error (PyErr.keyError s)
            | some j => Except.ok j)
      let sShape ← subjectSampleShape [w2, f2]
      Except.ok ⟨subjectAssemble b2 sShape, m.subjectStageData idxs enc.data⟩
  | _ => Except.error PyErr.indexError

/-- Lines 193-218 of BrainTranslator.forward: the encoder pipeline up to
and including the brain projection. -/
def BrainTranslator.pipeline (m : BrainTranslator) (inp : ForwardInput) :
    Except PyErr Tensor := do
  let fe ← m.featureEmbedded.forward inp.B inp.W
  let fe2 := rank2Guard fe
  let enc ← ProjectionHeadT.forward
    ⟨m.in_feature, m.in_feature, m.fcData⟩ fe2
  let es ← m.subjectStage inp enc
  let added ← broadcastShape3 es.shape [1, 56, m.in_feature]
  let brain1 : Tensor := ⟨added, m.posAddData es.data⟩
  let brain2 : Tensor ← (match added with
    | [a, b, c] =>
        if c = m.in_feature then
          Except.ok (⟨[a, b, c], m.encData brain1.data⟩ : Tensor)
        else Except.error (PyErr.runtimeError "encoder d_model mismatch")
    | _ => Except.error (PyErr.runtimeError "encoder expects 3-dim input"))
  let brain3 : Tensor := ⟨brain2.shape, m.lnData brain2.data⟩
  ProjectionHeadT.forward
    ⟨m.in_feature, m.decoder_embedding_size, m.projData⟩ brain3

/-- BrainTranslator.forward (lines 191-232): the pipeline followed by the
two-mode switch on stepone; in alignment mode the decoder embeds the
word-content batch and the scalar MSE against the brain embedding is
returned; in generation mode the decoder consumes the brain embedding as
input embeddings with the attention mask and the target ids as labels, and
its logits are returned, paired with the brain embedding when features is
set. -/
def BrainTranslator.forward (m : BrainTranslator) (inp : ForwardInput)
    (stepone features : Bool) : Except PyErr ForwardOut := do
  let brain_embedding ← m.pipeline inp
  if stepone then
    let words_embedding := m.xlnet.inputEmbeddings inp.word_contents
    Except.ok (ForwardOut.scalar
      (mseLoss brain_embedding.data words_embedding.data))
  else
    let lg ← m.xlnet.forwardLogits brain_embedding inp.input_masks_batch
      inp.target_ids
    if features then
      Except.ok (ForwardOut.logitsAndFeatures lg brain_embedding)
    else Except.ok (ForwardOut.logits lg)

/-! ## Claim theorems C3, C5, C6, C10 -/

/-- Concrete FeatureEmbedded instance as constructed by
BrainTranslator.__init__, with a trivial held kernel. -/
def feCx : FeatureEmbedded := ⟨104, 512, 2, true, fun _ _ => []⟩

/-- C5 counterexample: for a batch of exactly one sample with 5 words the
Recurrent Feature Encoder returns shape (5, 1024) - the unconditional
torch.squeeze at line 274 collapses the leading batch dimension, so the
result is 2-D, not the claimed 3-D (1, 5, 1024). -/
theorem C5_batch_dim_collapsed_counterexample :
    feCx.forward 1 5 = .ok ⟨[5, 1024], []⟩ ∧
      ([5, 1024] : Shape) ≠ [1, 5, 1024] ∧
      ([5, 1024] : Shape).length ≠ 3 :=
  ⟨rfl, by decide, by decide⟩

/-- C5 (amended): for a batch of exactly one sample with W words (W at
least 2, word-embedding width not 1), FeatureEmbedded.forward returns the
SQUEEZED 2-D tensor (W, hidden_dim * directions) - the batch dimension IS
collapsed by line 274 - and the caller's rank-2 guard at lines 194-195 is
what re-expands the result to (1, W, hidden_dim * directions). -/
theorem C5_single_sample_squeezed_then_guarded (f : FeatureEmbedded)
    (W : ℕ) (hW : 2 ≤ W) (hwidth : f.outWidth ≠ 1) :
    f.forward 1 W = .ok ⟨[W, f.outWidth], f.gruData 1 W⟩ ∧
      rank2Guard ⟨[W, f.outWidth], f.gruData 1 W⟩ =
        ⟨[1, W, f.outWidth], f.gruData 1 W⟩ := by
  constructor
  · have h0 : ¬ ((1 : ℕ) = 0 ∨ W = 0) := by omega
    have h1 : (W != 1) = true := by
      simp only [bne_iff_ne, ne_eq]
      omega
    have h2 : (f.outWidth != 1) = true := by
      simp only [bne_iff_ne, ne_eq]
      exact hwidth
    unfold FeatureEmbedded.forward
    rw [if_neg h0]
    simp [squeezeAll, h1, h2]
  · unfold rank2Guard unsqueeze0
    simp

/-- C5 witness: the amended statement at W = 5 on the constructed
instance. -/
theorem C5_single_sample_squeezed_then_guarded_witness :
    feCx.forward 1 5 = .ok ⟨[5, feCx.outWidth], feCx.gruData 1 5⟩ :=
  (C5_single_sample_squeezed_then_guarded feCx 5 (by decide) (by decide)).1

/-- C6 counterexample: a sample of shape (1, 840) - one word, feature
width 840 - comes out of the subject-conditioning stage with shape (840):
torch.squeeze at line 206 removes ALL size-1 dimensions, including the
words dimension, so the output shape is not identical to the input
shape. -/
theorem C6_subject_stage_collapse_counterexample :
    subjectSampleShape [1, 840] = .ok [840] ∧
      ([840] : Shape) ≠ [1, 840] :=
  ⟨rfl, by decide⟩

/-- C6 (amended): for a sample whose (max_words, feature_dim) shape has no
size-1 dimension, the subject-conditioning stage (channel expansion to 64
via the pointwise convolution, transpose, combination by the subject's
64x1 vector, squeeze) returns exactly the input shape; since the squeeze
at line 206 removes ALL size-1 dimensions, a sample with max_words = 1 or
feature_dim = 1 loses that dimension too; 1-sample batches are explicitly
re-expanded to a 3-D batch tensor by the guard at lines 209-210. -/
theorem C6_subject_stage_shape (W F : ℕ) (hW : W ≠ 1) (hF : F ≠ 1) :
    subjectSampleShape [W, F] = .ok [W, F] ∧
      subjectAssemble 1 [W, F] = [1, W, F] := by
  constructor
  · have h1 : (W != 1) = true := by
      simp only [bne_iff_ne, ne_eq]
      exact hW
    have h2 : (F != 1) = true := by
      simp only [bne_iff_ne, ne_eq]
      exact hF
    simp [subjectSampleShape, unsqueezeDim1, conv1dShape, swapaxes12Shape,
      matmulColShape, squeezeAll, h1, h2, except_bind_ok]
  · rfl

/-- C6 witness: the reference sample shape 56 words by 840 features. -/
theorem C6_subject_stage_shape_witness :
    subjectSampleShape [56, 840] = .ok [56, 840] :=
  (C6_subject_stage_shape 56 840 (by decide) (by decide)).1

/-- C3: with the reference construction in_feature = 840 and the recurrent
encoder hardwired to hidden size 512 bidirectional (per-word width 1024),
the top-level forward raises the matmul shape error on EVERY input batch
(any B at least 1 samples of any W at least 1 words, both mode flags): the
first Gated Projection Block is built 840-wide and cannot accept the
1024-wide feature embedding. -/
theorem C3_forward_always_shape_error (m : BrainTranslator)
    (inp : ForwardInput) (stepone features : Bool)
    (hin : m.in_feature = 840) (hB : 1 ≤ inp.B) (hW : 1 ≤ inp.W) :
    m.forward inp stepone features =
      .error (.runtimeError "mat1 and mat2 shapes cannot be multiplied") := by
  have hfe : m.featureEmbedded.forward inp.B inp.W =
      .ok ⟨squeezeAll [inp.B, inp.W, 1024], m.gruData inp.B inp.W⟩ := by
    have h0 : ¬ (inp.B = 0 ∨ inp.W = 0) := by omega
    unfold FeatureEmbedded.forward BrainTranslator.featureEmbedded
    rw [if_neg h0]
    rfl
  obtain ⟨l, hl⟩ : ∃ l, squeezeAll [inp.B, inp.W, 1024] = l ++ [1024] := by
    refine ⟨squeezeAll [inp.B, inp.W], ?_⟩
    show List.filter _ ([inp.B, inp.W] ++ [1024]) = _
    rw [List.filter_append]
    rfl
  have hguard : ∀ (s : Shape) (d : List ℚ), (rank2Guard ⟨s, d⟩).shape =
      if s.length = 2 then 1 :: s else s := by
    intro s d
    unfold rank2Guard
    by_cases h : s.length = 2
    · simp [h, unsqueeze0]
    · simp [h]
  have hlast : (rank2Guard ⟨squeezeAll [inp.B, inp.W, 1024],
      m.gruData inp.B inp.W⟩).shape.getLast? = some 1024 := by
    rw [hguard]
    by_cases h : (squeezeAll [inp.B, inp.W, 1024]).length = 2
    · rw [if_pos h, hl, ← List.cons_append]
      exact getLast?_append_singleton (1 :: l) 1024
    · rw [if_neg h, hl]
      exact getLast?_append_singleton l 1024
  have hfc : ProjectionHeadT.forward ⟨m.in_feature, m.in_feature, m.fcData⟩
      (rank2Guard ⟨squeezeAll [inp.B, inp.W, 1024],
        m.gruData inp.B inp.W⟩) =
      .error (.runtimeError "mat1 and mat2 shapes cannot be multiplied") := by
    unfold ProjectionHeadT.forward
    rw [hin]
    simp [linearShape, hlast, except_bind_error]
  have hpipe : m.pipeline inp =
      .error (.runtimeError "mat1 and mat2 shapes cannot be multiplied") := by
    unfold BrainTranslator.pipeline
    rw [hfe, except_bind_ok]
    simp only [hfc, except_bind_error]
  unfold BrainTranslator.forward
  rw [hpipe]
  rfl

/-- Concrete BrainTranslator instance at the reference configuration
in_feature = 840, with trivial held kernels, for the C3 witness. -/
def mCx : BrainTranslator :=
  ⟨840, 768, fun _ _ => [], id, fun _ d => d, id, id, id, id,
   ⟨768, 32000, id, fun d _ _ => d⟩⟩

/-- Concrete forward input: 2 samples of 5 words, subjects ZAB and YSD. -/
def inpCx : ForwardInput :=
  ⟨2, 5, ["ZAB", "YSD"], ⟨[], []⟩, ⟨[], []⟩, ⟨[], []⟩, ⟨[], []⟩, ⟨[], []⟩⟩

/-- C3 witness: the concrete 840-wide model errors on the concrete
batch. -/
theorem C3_forward_always_shape_error_witness :
    mCx.forward inpCx false false =
      .error (.runtimeError "mat1 and mat2 shapes cannot be multiplied") :=
  C3_forward_always_shape_error mCx inpCx false false rfl
    (by decide) (by decide)

/-- The mean of squared differences is never negative. -/
theorem mseLoss_nonneg (a b : List ℚ) : 0 ≤ mseLoss a b := by
  unfold mseLoss
  apply div_nonneg
  · apply List.sum_nonneg
    intro x hx
    rcases List.mem_map.mp hx with ⟨p, _, hpx⟩
    rw [← hpx]
    exact sq_nonneg _
  · exact_mod_cast Nat.zero_le _

/-- C10: the top-level forward is a two-mode dichotomy on the stepone
flag.  Whenever the encoder pipeline produces the projected brain
embedding bp (a 3-D (b, L, d_model) tensor): with the flag true the
forward returns the single scalar mean-squared error between bp and the
decoder's native embeddings of the word-content batch - a rational, hence
finite, value that is nonnegative; with the flag false it feeds bp as
input embeddings to the decoder together with the attention mask and the
target token ids as labels and returns the decoder's logits of shape
(b, L, vocab_size), paired with bp exactly when the feature-return flag is
set. -/
theorem C10_forward_mode_dichotomy (m : BrainTranslator)
    (inp : ForwardInput) (bp : Tensor) (b L : ℕ)
    (hp : m.pipeline inp = .ok bp)
    (hs : bp.shape = [b, L, m.xlnet.d_model]) :
    (m.forward inp true false =
        .ok (.scalar (mseLoss bp.data
          (m.xlnet.inputEmbeddings inp.word_contents).data)) ∧
      0 ≤ mseLoss bp.data
        (m.xlnet.inputEmbeddings inp.word_contents).data) ∧
      (∀ features, m.forward inp false features =
        .ok (if features then
            .logitsAndFeatures
              ⟨[b, L, m.xlnet.vocab_size],
               m.xlnet.logitsData bp.data inp.input_masks_batch.data
                 inp.target_ids.data⟩ bp
          else
            .logits ⟨[b, L, m.xlnet.vocab_size],
              m.xlnet.logitsData bp.data inp.input_masks_batch.data
                inp.target_ids.data⟩)) := by
  have hlg : m.xlnet.forwardLogits bp inp.input_masks_batch inp.target_ids =
      .ok ⟨[b, L, m.xlnet.vocab_size],
        m.xlnet.logitsData bp.data inp.input_masks_batch.data
          inp.target_ids.data⟩ := by
    unfold XLNetModel.forwardLogits
    rw [hs]
    simp
  refine ⟨⟨?_, mseLoss_nonneg _ _⟩, ?_⟩
  · unfold BrainTranslator.forward
    rw [hp, except_bind_ok]
    rfl
  · intro features
    unfold BrainTranslator.forward
    rw [hp, except_bind_ok]
    cases features
    · simp [hlg, except_bind_ok]
    · simp [hlg, except_bind_ok]

/-- Concrete BrainTranslator instance whose in_feature is 1024 (the one
width under which the pipeline is shape-consistent end to end), with
trivial held kernels, for the C10 witness. -/
def mOk : BrainTranslator :=
  ⟨1024, 768, fun _ _ => [], id, fun _ d => d, id, id, id, id,
   ⟨768, 32000, id, fun d _ _ => d⟩⟩

/-- Concrete forward input for the C10 witness: 1 sample of 56 words,
subject ZAB, a 2-token word-content batch. -/
def inpOk : ForwardInput :=
  ⟨1, 56, ["ZAB"], ⟨[], []⟩, ⟨[], []⟩, ⟨[], []⟩, ⟨[2, 3], [4, 7]⟩,
   ⟨[], []⟩⟩

/-- The brain embedding the pipeline produces on the C10 witness input. -/
def bpOk : Tensor := ⟨[1, 56, 768], []⟩

/-- C10 witness: both modes evaluated on the concrete shape-consistent
model and batch. -/
theorem C10_forward_mode_dichotomy_witness :
    (mOk.forward inpOk true false =
        .ok (.scalar (mseLoss bpOk.data
          (mOk.xlnet.inputEmbeddings inpOk.word_contents).data)) ∧
      0 ≤ mseLoss bpOk.data
        (mOk.xlnet.inputEmbeddings inpOk.word_contents).data) ∧
      mOk.forward inpOk false false =
        .ok (.logits ⟨[1, 56, mOk.xlnet.vocab_size],
          mOk.xlnet.logitsData bpOk.data inpOk.input_masks_batch.data
            inpOk.target_ids.data⟩) := by
  have h := C10_forward_mode_dichotomy mOk inpOk bpOk 1 56 (by rfl) rfl
  refine ⟨h.1, ?_⟩
  have h2 := h.2 false
  simpa using h2
